import Mathlib

/-!
Verification development for the blue-intelligence repository.

The data model is embedded from `src/types/schema.ts`.  The District
Opportunity Scoring Engine itself lives in `scripts/calculate-opportunity.py`,
which is not part of the repository snapshot (only its type declarations in
`schema.ts` and its consumers are); the engine functions below are therefore
modelled from the specification, with the concrete weight and slope constants
chosen as documented constants (the spec leaves them as an implementation
choice).  The table-building, CSV and URL-filter functions are embedded
directly from their TypeScript sources.
-/

namespace BlueIntel

/-- `Chamber` from `schema.ts`: `'house' | 'senate'`. -/
inductive Chamber
  | house
  | senate
deriving DecidableEq, Repr

/-- Incumbent party union from `schema.ts`: `'Democratic' | 'Republican'`. -/
inductive IncParty
  | Democratic
  | Republican
deriving DecidableEq, Repr

/-- The literal party string of an `IncParty` value. -/
def IncParty.toName : IncParty → String
  | .Democratic => "Democratic"
  | .Republican => "Republican"

/-- `Candidate` from `schema.ts`.  Optional/nullable fields are `Option`s. -/
structure Candidate where
  name : String
  party : Option String
  status : String
  filedDate : Option String
  ethicsUrl : Option String
  reportId : String
  source : String
  isIncumbent : Option Bool
deriving DecidableEq, Repr

/-- `Incumbent` from `schema.ts`. -/
structure Incumbent where
  name : String
  party : IncParty
deriving DecidableEq, Repr

/-- `District` from `schema.ts`.  The TS field `incumbent?: Incumbent | null`
collapses `undefined` and `null` into `Option.none` (all readers in the
repository treat them alike, via optional chaining). -/
structure District where
  districtNumber : Int
  candidates : List Candidate
  incumbent : Option Incumbent
deriving DecidableEq, Repr

/-- `ElectionCandidate` from `schema.ts`.  TS `number`s that hold percentages
are modelled as rationals, vote counts as integers. -/
structure ElectionCandidate where
  name : String
  party : String
  votes : Int
  percentage : Rat
deriving DecidableEq, Repr

/-- `ElectionResult` from `schema.ts`. -/
structure ElectionResult where
  year : Int
  totalVotes : Int
  winner : ElectionCandidate
  runnerUp : Option ElectionCandidate
  margin : Rat
  marginVotes : Int
  uncontested : Option Bool
deriving DecidableEq, Repr

/-- `Competitiveness` from `schema.ts`. -/
structure Competitiveness where
  score : Rat
  avgMargin : Rat
  hasSwung : Bool
  contestedRaces : Int
  dominantParty : Option String
deriving DecidableEq, Repr

/-- `DistrictElectionHistory` from `schema.ts`.  The TS
`Record<string, ElectionResult>` keyed by year string is modelled as an
association list in insertion order (JS object semantics: distinct keys). -/
structure DistrictElectionHistory where
  districtNumber : Int
  elections : List (String × ElectionResult)
  competitiveness : Competitiveness
deriving DecidableEq, Repr

/-- `CandidatesData` from `schema.ts` (`candidates.json`). -/
structure CandidatesData where
  lastUpdated : String
  house : List (String × District)
  senate : List (String × District)
deriving DecidableEq, Repr

/-- `ElectionsData` from `schema.ts` (`elections.json`). -/
structure ElectionsData where
  lastUpdated : String
  house : List (String × DistrictElectionHistory)
  senate : List (String × DistrictElectionHistory)
deriving DecidableEq, Repr

/-- `OpportunityTier` from `schema.ts`: the five tier codes. -/
inductive OpportunityTier
  | HIGH_OPPORTUNITY
  | EMERGING
  | BUILD
  | DEFENSIVE
  | NON_COMPETITIVE
deriving DecidableEq, Repr

/-- The literal string of a tier code, exactly as in the `OpportunityTier`
union of `schema.ts`. -/
def OpportunityTier.code : OpportunityTier → String
  | .HIGH_OPPORTUNITY => "HIGH_OPPORTUNITY"
  | .EMERGING => "EMERGING"
  | .BUILD => "BUILD"
  | .DEFENSIVE => "DEFENSIVE"
  | .NON_COMPETITIVE => "NON_COMPETITIVE"

/-- `OpportunityFactors` from `schema.ts`. -/
structure OpportunityFactors where
  competitiveness : Rat
  marginTrend : Rat
  incumbency : Rat
  candidatePresence : Rat
  openSeatBonus : Bool
deriving DecidableEq, Repr

/-- `OpportunityMetrics` from `schema.ts`. -/
structure OpportunityMetrics where
  avgMargin : Rat
  trendChange : Rat
  competitivenessScore : Rat
deriving DecidableEq, Repr

/-- `OpportunityFlags` from `schema.ts`. -/
structure OpportunityFlags where
  needsCandidate : Bool
  openSeat : Bool
  trendingDem : Bool
  defensive : Bool
  hasDemocrat : Bool
deriving DecidableEq, Repr

/-- `DistrictOpportunity` from `schema.ts`; `opportunityScore` is the 0-100
integer, so it is carried as a `Nat`. -/
structure DistrictOpportunity where
  districtNumber : Int
  opportunityScore : Nat
  tier : OpportunityTier
  tierLabel : String
  factors : OpportunityFactors
  metrics : OpportunityMetrics
  flags : OpportunityFlags
  recommendation : String
deriving DecidableEq, Repr

/-- `OpportunityData` from `schema.ts` (`opportunity.json`). -/
structure OpportunityData where
  lastUpdated : String
  house : List (String × DistrictOpportunity)
  senate : List (String × DistrictOpportunity)
deriving DecidableEq, Repr

/-! ### The District Opportunity Scoring Engine

Modelled from the spec: `scripts/calculate-opportunity.py` is not part of the
repository snapshot, so the four pipeline stages of the engine (§4.1-§4.4)
are modelled from the specification.  Where the spec leaves a constant open
(the factor weights and the trend slope), a concrete documented constant is
chosen: weights 0.4 / 0.3 / 0.2 / 0.1 (summing to 1.0), open-seat bonus 10
points, trend slope 1/50 around the neutral point 0.5. -/

/-- The target party of this deployment (fixed per deployment; the schema
comments in `schema.ts` document that scores track Democratic opportunity). -/
def targetPartyName : String := "Democratic"

/-- Whether a filed candidate belongs to the target party: case-insensitive
comparison of the party string against the literal target-party name (the
same comparison `buildTableRows` uses: `c.party?.toLowerCase() ===
'democratic'`).  A candidate with unknown (`null`) party never matches. -/
def isTargetPartyCandidate (c : Candidate) : Bool :=
  match c.party with
  | some p => p.toLower == "democratic"
  | none => false

/-- Insert an election result into a list sorted by year, descending. -/
def insertByYearDesc (e : ElectionResult) : List ElectionResult → List ElectionResult
  | [] => [e]
  | x :: xs => if x.year ≤ e.year then e :: x :: xs else x :: insertByYearDesc e xs

/-- The district's election results sorted most-recent-first. -/
def sortByYearDesc (l : List ElectionResult) : List ElectionResult :=
  l.foldr insertByYearDesc []

/-- Modelled from the spec: §4.1 Metric Extractor.  `avgMargin` passes the
Competitiveness summary through, defaulting to the neutral midpoint 50 when
no historical elections exist; `trendChange` is the signed delta between the
two most recent margins, positive meaning movement in the target party's
favor (a growing margin when the target party holds the seat, a shrinking
one otherwise), 0 when fewer than two elections exist;
`competitivenessScore` is copied verbatim. -/
def extractMetrics (hist : DistrictElectionHistory) : OpportunityMetrics :=
  let recent := sortByYearDesc (hist.elections.map Prod.snd)
  let trendChange : Rat :=
    match recent with
    | m0 :: m1 :: _ =>
        if m0.winner.party == targetPartyName then m0.margin - m1.margin
        else m1.margin - m0.margin
    | _ => 0
  { avgMargin := if hist.elections.isEmpty then 50 else hist.competitiveness.avgMargin
    trendChange := trendChange
    competitivenessScore := hist.competitiveness.score }

/-- Clamp a rational to the unit interval. -/
def clamp01 (x : Rat) : Rat := max 0 (min 1 x)

/-- Modelled from the spec: §4.2 Factor Calculator.  Each factor is
independently bounded; the trend rescaling is linear with slope 1/50,
monotonic and symmetric around the neutral point 1/2. -/
def calcFactors (m : OpportunityMetrics) (d : District) : OpportunityFactors :=
  { competitiveness := clamp01 (m.competitivenessScore / 100)
    marginTrend := clamp01 (1/2 + m.trendChange / 50)
    incumbency := if d.incumbent.isSome then 1/2 else 1
    candidatePresence := if d.candidates.any isTargetPartyCandidate then 1 else 0
    openSeatBonus := d.incumbent.isNone }

/-- Modelled from the spec: §4.3, the fixed weighted sum (weights
0.4 + 0.3 + 0.2 + 0.1 = 1.0) on the 0-100 scale plus the additive
open-seat bonus of 10 points. -/
def rawScore (f : OpportunityFactors) : Rat :=
  100 * (2/5 * f.competitiveness + 3/10 * f.marginTrend
         + 1/5 * f.incumbency + 1/10 * f.candidatePresence)
    + (if f.openSeatBonus then 10 else 0)

/-- Modelled from the spec: §4.3, integer rounding and clamping of the final
score into [0, 100]. -/
def opportunityScoreOf (f : OpportunityFactors) : Nat :=
  (min 100 (max 0 (round (rawScore f)))).toNat

/-- Modelled from the spec: §4.3 score bands, inclusive lower bounds. -/
def classifyScoreBand (s : Nat) : OpportunityTier :=
  if 70 ≤ s then .HIGH_OPPORTUNITY
  else if 50 ≤ s then .EMERGING
  else if 30 ≤ s then .BUILD
  else .NON_COMPETITIVE

/-- Whether the district's seat is currently held by the target party (an
incumbent record exists and its party is the target party). -/
def isDefendedSeat (d : District) : Bool :=
  match d.incumbent with
  | some inc => inc.party == .Democratic
  | none => false

/-- Modelled from the spec: §4.3, classify by score band first, then apply
the identity-based DEFENSIVE override last. -/
def classifyTier (s : Nat) (defended : Bool) : OpportunityTier :=
  let band := classifyScoreBand s
  if defended then .DEFENSIVE else band

/-- Modelled from the spec: §4.3, the fixed `tierLabel` string lookup. -/
def tierLabelOf : OpportunityTier → String
  | .HIGH_OPPORTUNITY => "High Opportunity"
  | .EMERGING => "Emerging"
  | .BUILD => "Build"
  | .DEFENSIVE => "Defensive"
  | .NON_COMPETITIVE => "Non-Competitive"

/-- Modelled from the spec: §4.4 Flag Generator. -/
def mkFlags (f : OpportunityFactors) (score : Nat) (tier : OpportunityTier) :
    OpportunityFlags :=
  let hasDem : Bool := decide (f.candidatePresence = 1)
  { needsCandidate := decide (50 ≤ score) && !hasDem
    openSeat := f.openSeatBonus
    trendingDem := decide ((1 : Rat)/2 < f.marginTrend)
    defensive := tier == .DEFENSIVE
    hasDemocrat := hasDem }

/-- Modelled from the spec: §4.4, the finite recommendation decision table
keyed by `(tier, needsCandidate, openSeat)`, exhaustive, never empty. -/
def recommendationOf (tier : OpportunityTier) (needsCandidate openSeat : Bool) :
    String :=
  match tier, needsCandidate, openSeat with
  | .HIGH_OPPORTUNITY, true, true => "Recruit a candidate - high-value open seat"
  | .HIGH_OPPORTUNITY, true, false => "Recruit a challenger - top-tier target"
  | .HIGH_OPPORTUNITY, false, true => "Support filed candidate - open-seat pickup"
  | .HIGH_OPPORTUNITY, false, false => "Invest heavily - top-tier target"
  | .EMERGING, true, true => "Recruit a candidate - emerging open seat"
  | .EMERGING, true, false => "Recruit a candidate - emerging district"
  | .EMERGING, false, true => "Support filed candidate - emerging open seat"
  | .EMERGING, false, false => "Invest - emerging district"
  | .BUILD, true, true => "Build infrastructure - open seat, long-term play"
  | .BUILD, true, false => "Build infrastructure - long-term play"
  | .BUILD, false, true => "Support filed candidate - build for the future"
  | .BUILD, false, false => "Build for the future"
  | .DEFENSIVE, true, true => "Defend seat - recruit for open defense"
  | .DEFENSIVE, true, false => "Defend incumbent - monitor challenger filings"
  | .DEFENSIVE, false, true => "Defend open seat - support the nominee"
  | .DEFENSIVE, false, false => "Defend incumbent - monitor challenger filings"
  | .NON_COMPETITIVE, true, true => "Low priority - monitor only"
  | .NON_COMPETITIVE, true, false => "Low priority - monitor only"
  | .NON_COMPETITIVE, false, true => "Low priority - monitor open seat"
  | .NON_COMPETITIVE, false, false => "Low priority - monitor only"

/-- Modelled from the spec: the full four-stage pipeline for one district
(§2): Metric Extractor, Factor Calculator, Score Aggregator and Tier
Classifier, Flag and Recommendation Generator. -/
def scoreDistrict (hist : DistrictElectionHistory) (d : District) :
    DistrictOpportunity :=
  let m := extractMetrics hist
  let f := calcFactors m d
  let s := opportunityScoreOf f
  let tier := classifyTier s (isDefendedSeat d)
  let flags := mkFlags f s tier
  { districtNumber := d.districtNumber
    opportunityScore := s
    tier := tier
    tierLabel := tierLabelOf tier
    factors := f
    metrics := m
    flags := flags
    recommendation := recommendationOf tier flags.needsCandidate flags.openSeat }

/-- Modelled from the spec: one chamber's batch run (§6, §8): each district
key of the Candidate Filing Record set is scored; a key with no Election
History Record is skipped (excluded from the output, logged by the caller). -/
def scoreChamber (cands : List (String × District))
    (elecs : List (String × DistrictElectionHistory)) :
    List (String × DistrictOpportunity) :=
  cands.filterMap fun kv =>
    (List.lookup kv.1 elecs).map fun h => (kv.1, scoreDistrict h kv.2)

/-- Modelled from the spec: the whole engine run (§6): both chambers plus the
top-level batch `lastUpdated` timestamp, the only wall-clock input. -/
def runEngine (ts : String) (cd : CandidatesData) (ed : ElectionsData) :
    OpportunityData :=
  { lastUpdated := ts
    house := scoreChamber cd.house ed.house
    senate := scoreChamber cd.senate ed.senate }

/-! ### Table row construction and display helpers, embedded from the source

`getScoreColor` and the tier colors are from
`src/components/Table/TableRow.tsx`; `StrategicTableRow` and
`buildTableRows` are from the CSV export utility (`src/unnamed/part_005`). -/

/-- `getScoreColor` from `TableRow.tsx`: score color by opportunity score
(the score is the 0-100 integer of the schema, hence `Nat`). -/
def getScoreColor (score : Nat) : String :=
  if 70 ≤ score then "#059669"
  else if 50 ≤ score then "#0891B2"
  else if 30 ≤ score then "#D97706"
  else "#6B7280"

/-- The `color` entry of `getTierStyles` in `TableRow.tsx` for each tier
code. -/
def scoreBandColor : OpportunityTier → String
  | .HIGH_OPPORTUNITY => "#059669"
  | .EMERGING => "#0891B2"
  | .BUILD => "#D97706"
  | .DEFENSIVE => "#3676eb"
  | .NON_COMPETITIVE => "#6B7280"

/-- `StrategicTableRow` from the CSV export utility. -/
structure StrategicTableRow where
  districtId : String
  districtNumber : Int
  chamber : Chamber
  incumbent : String
  incumbentParty : String
  challenger : String
  challengerParty : String
  tier : String
  tierLabel : String
  opportunityScore : Nat
  margin2024 : Option Rat
  marginDisplay : String
  hasDemocrat : Bool
  hasRepublican : Bool
  needsCandidate : Bool
  openSeat : Bool
  recommendation : String
deriving DecidableEq, Repr

/-- JS `parseInt(s, 10)`: optional sign, then leading decimal digits; the
`NaN` result (no digits) is modelled as 0 - no claim observes it, the keys
fed to it are decimal district numbers. -/
def parseInt10 (s : String) : Int :=
  let (sign, rest) :=
    match s.data with
    | '-' :: r => ((-1 : Int), r)
    | '+' :: r => ((1 : Int), r)
    | r => ((1 : Int), r)
  let digits := rest.takeWhile Char.isDigit
  if digits.isEmpty then 0
  else sign * ((digits.foldl (fun acc c => 10 * acc + (c.toNat - '0'.toNat)) (0 : Nat) : Nat) : Int)

/-- JS `Number.prototype.toFixed(1)`, modelled as exact decimal rounding on
rationals (binary floating-point artifacts are not modelled). -/
def formatFixed1 (m : Rat) : String :=
  let t : Int := round (m * 10)
  let a := t.natAbs
  let body := toString (a / 10) ++ "." ++ toString (a % 10)
  if t < 0 then "-" ++ body else body

/-- District id prefix used in `buildTableRows`:
`chamber === 'house' ? 'HD' : 'SD'`. -/
def chamberPrefix : Chamber → String
  | .house => "HD"
  | .senate => "SD"

/-- The chamber field of a record set (`candidatesData[chamber]` etc.). -/
def CandidatesData.get (cd : CandidatesData) : Chamber → List (String × District)
  | .house => cd.house
  | .senate => cd.senate

/-- The chamber field of the opportunity record set. -/
def OpportunityData.get (od : OpportunityData) :
    Chamber → List (String × DistrictOpportunity)
  | .house => od.house
  | .senate => od.senate

/-- The chamber field of the elections record set. -/
def ElectionsData.get (ed : ElectionsData) :
    Chamber → List (String × DistrictElectionHistory)
  | .house => ed.house
  | .senate => ed.senate

/-- The loop body of `buildTableRows` from the CSV export utility, embedded
statement by statement for one `[districtNum, district]` entry (`none` is
the `continue`, `some` the `rows.push`).  JS `Record`s are association lists
in insertion order with distinct keys (`Object.entries` iteration), indexing
is `List.lookup`, `&&`/`||` truthiness follows the JS semantics noted
inline. -/
def mkStrategicRow (opportunities : List (String × DistrictOpportunity))
    (elections : List (String × DistrictElectionHistory)) (chamber : Chamber)
    (districtNum : String) (district : District) : Option StrategicTableRow :=
    match List.lookup districtNum opportunities with
    | none => none    -- `if (!opportunity) continue;`
    | some opportunity =>
      let demCandidate := district.candidates.find? fun c =>
        match c.party with
        | some p => p.toLower == "democratic"   -- `c.party?.toLowerCase() === 'democratic'`
        | none => false
      let repCandidate := district.candidates.find? fun c =>
        match c.party with
        | some p => p.toLower == "republican"
        | none => false
      let election2024 :=
        (List.lookup districtNum elections).bind fun h =>
          List.lookup "2024" h.elections    -- `electionHistory?.elections?.['2024']`
      let margin2024 := election2024.map (·.margin)
      let winner2024 := election2024.map (·.winner)
      let marginSign :=
        if (winner2024.map (·.party)) == some "Republican" then "+" else "-"
      let marginDisplay :=
        match margin2024 with
        | some m => marginSign ++ formatFixed1 m ++ "%"
        | none => "N/A"    -- `margin2024 !== null ? ... : 'N/A'`
      let incumbentName :=
        match district.incumbent with
        | some inc => if inc.name == "" then "Open Seat" else inc.name
        | none => "Open Seat"    -- `incumbent?.name || 'Open Seat'`
      let incumbentParty :=
        match district.incumbent with
        | some inc => inc.party.toName
        | none => "N/A"    -- `incumbent?.party || 'N/A'` (the party union is never empty)
      let thirdBranch : String × String :=
        if 0 < district.candidates.length then
          match district.candidates.find? (fun c => !(c.isIncumbent.getD false)) with
          | some nonIncumbent =>
              (nonIncumbent.name,
               match nonIncumbent.party with
               | some p => if p == "" then "Unknown" else p    -- `nonIncumbent.party || 'Unknown'`
               | none => "Unknown")
          | none => ("", "")
        else ("", "")
      let challengerPair : String × String :=
        match demCandidate with
        | some dc => (dc.name, "Democratic")
        | none =>
          match repCandidate with
          | some rc =>
              -- `repCandidate && !repCandidate.isIncumbent` (undefined is falsy)
              if rc.isIncumbent.getD false then thirdBranch
              else (rc.name, "Republican")
          | none => thirdBranch
      some
        { districtId := chamberPrefix chamber ++ "-" ++ districtNum
          districtNumber := parseInt10 districtNum
          chamber := chamber
          incumbent := incumbentName
          incumbentParty := incumbentParty
          challenger := challengerPair.1
          challengerParty := challengerPair.2
          tier := opportunity.tier.code
          tierLabel := opportunity.tierLabel
          opportunityScore := opportunity.opportunityScore
          margin2024 := margin2024
          marginDisplay := marginDisplay
          hasDemocrat := opportunity.flags.hasDemocrat
          hasRepublican := repCandidate.isSome    -- `!!repCandidate`
          needsCandidate := opportunity.flags.needsCandidate
          openSeat := opportunity.flags.openSeat
          recommendation := opportunity.recommendation }

/-- `buildTableRows` from the CSV export utility: one pass over the chamber's
candidate entries (`for ... of Object.entries(districts)`), pushing one row
per entry that has an opportunity record. -/
def buildTableRows (candidatesData : CandidatesData)
    (opportunityData : OpportunityData) (electionsData : ElectionsData)
    (chamber : Chamber) : List StrategicTableRow :=
  (candidatesData.get chamber).filterMap fun kv =>
    mkStrategicRow (opportunityData.get chamber) (electionsData.get chamber)
      chamber kv.1 kv.2

/-! ### CSV field escaping, embedded from the CSV export utility -/

/-- The value type `escapeCSVField` accepts:
`string | number | boolean | null | undefined`.  The numeric fields fed to it
are integers, so numbers are modelled as `Int`. -/
inductive CSVValue
  | vstr (s : String)
  | vint (n : Int)
  | vbool (b : Bool)
  | vnull
  | vundef
deriving DecidableEq, Repr

/-- `value === null || value === undefined`. -/
def CSVValue.isNullish : CSVValue → Bool
  | .vnull => true
  | .vundef => true
  | _ => false

/-- JS `String(value)` on the supported value types. -/
def stringOfValue : CSVValue → String
  | .vstr s => s
  | .vint n => toString n
  | .vbool b => if b then "true" else "false"
  | .vnull => "null"
  | .vundef => "undefined"

/-- `stringValue.includes(',') || stringValue.includes('"') ||
stringValue.includes('\n')` (single-character `includes` is membership). -/
def hasSpecialChar (s : String) : Bool :=
  s.data.any fun c => c == ',' || c == '"' || c == '\n'

/-- `stringValue.replace(/"/g, '""')`: double every double quote. -/
def doubleQuotesL : List Char → List Char
  | [] => []
  | c :: rest =>
    if c = '"' then '"' :: '"' :: doubleQuotesL rest else c :: doubleQuotesL rest

/-- `escapeCSVField` from the CSV export utility: empty string for
`null`/`undefined`; otherwise wrap in double quotes with interior quotes
doubled exactly when the string form contains a comma, a double quote or a
newline, else return the string form unchanged. -/
def escapeCSVField (value : CSVValue) : String :=
  if value.isNullish then ""
  else
    let stringValue := stringOfValue value
    if hasSpecialChar stringValue then
      ⟨'"' :: (doubleQuotesL stringValue.data ++ ['"'])⟩
    else stringValue

/-- RFC 4180 unescaping of one emitted field (verification-side definition):
collapse each doubled double quote of the interior of a quoted field. -/
def collapseQuotesL : List Char → List Char
  | [] => []
  | [c] => [c]
  | c1 :: c2 :: rest =>
    if c1 = '"' ∧ c2 = '"' then '"' :: collapseQuotesL rest
    else c1 :: collapseQuotesL (c2 :: rest)

/-- RFC 4180 unescaping of one emitted field, at the character level: a field
wrapped in double quotes has the wrapper removed and its interior quote
pairs collapsed; any other field is taken verbatim. -/
def unescapeL : List Char → List Char
  | [] => []
  | c :: rest =>
    if c = '"' then
      match rest.getLast? with
      | some q => if q = '"' then collapseQuotesL rest.dropLast else c :: rest
      | none => c :: rest
    else c :: rest

/-- RFC 4180 unescaping of one emitted field (verification-side definition). -/
def unescapeCSVField (s : String) : String := ⟨unescapeL s.data⟩

/-! ### Filter-state URL encoding, embedded from `src/lib/navigationContext.ts`

`FilterState` is embedded with the six fields `navigationContext.ts`
dereferences and the component tests construct (the three-field interface
literally written in `FilterPanel.tsx` omits three fields that
`navigationContext.ts` requires; the six-field shape is the one the code
needs to type-check).  `URLSearchParams` is an external platform API; it is
modelled as the key-value sequence it holds, with WHATWG `set`/`get`
semantics.  Its `toString`/constructor pair round-trips the sequence exactly
(every delimiter is percent-escaped in the
`application/x-www-form-urlencoded` serialization), so the query-string
layer is represented by the parameter sequence itself. -/

/-- The `'all' | 'yes' | 'no'` union of the filter fields. -/
inductive YesNoAll
  | all
  | yes
  | no
deriving DecidableEq, Repr

/-- The literal string of a `YesNoAll` value. -/
def YesNoAll.code : YesNoAll → String
  | .all => "all"
  | .yes => "yes"
  | .no => "no"

/-- `RepublicanDataMode` from `src/lib/congressionalLookup.ts`:
`'none' | 'incumbents' | 'challengers' | 'all'` (constructor names `noneM`
and `allM` avoid clashing with `Option.none` and keyword-like names). -/
inductive RepublicanDataMode
  | noneM
  | incumbents
  | challengers
  | allM
deriving DecidableEq, Repr

/-- The literal string of a `RepublicanDataMode` value. -/
def RepublicanDataMode.code : RepublicanDataMode → String
  | .noneM => "none"
  | .incumbents => "incumbents"
  | .challengers => "challengers"
  | .allM => "all"

/-- The six-field `FilterState` consumed by `navigationContext.ts`. -/
structure FilterState where
  party : List String
  hasCandidate : YesNoAll
  contested : YesNoAll
  opportunity : List String
  showRepublicanData : Bool
  republicanDataMode : RepublicanDataMode
deriving DecidableEq, Repr

/-- The default filter state: `defaultFilters` of `FilterPanel.tsx` extended
with the baseline values of the remaining three fields as the component
tests construct them (`opportunity: []`, `showRepublicanData: false`,
`republicanDataMode: 'none'`). -/
def defaultFilters : FilterState :=
  { party := []
    hasCandidate := .all
    contested := .all
    opportunity := []
    showRepublicanData := false
    republicanDataMode := .noneM }

/-- The key-value sequence held by a `URLSearchParams`. -/
def URLParams : Type := List (String × String)

/-- WHATWG `URLSearchParams.set`: replace the first entry with the key (and
drop later duplicates), else append. -/
def setParam : URLParams → String → String → URLParams
  | [], k, v => [(k, v)]
  | kv :: rest, k, v =>
    if kv.1 = k then (k, v) :: rest.filter (fun kv2 => kv2.1 ≠ k)
    else kv :: setParam rest k v

/-- WHATWG `URLSearchParams.get`: the value of the first entry with the key,
or `null`. -/
def getParam (ps : URLParams) (k : String) : Option String :=
  List.lookup k ps

/-- JS `Array.prototype.join(',')` at the character level. -/
def joinCommaL : List (List Char) → List Char
  | [] => []
  | [x] => x
  | x :: xs => x ++ ',' :: joinCommaL xs

/-- JS `String.prototype.split(',')` at the character level. -/
def splitCommaL : List Char → List (List Char)
  | [] => [[]]
  | c :: rest =>
    if c = ',' then [] :: splitCommaL rest
    else
      match splitCommaL rest with
      | h :: t => (c :: h) :: t
      | [] => [[c]]

/-- JS `Array.prototype.join(',')` on strings. -/
def joinComma (l : List String) : String := ⟨joinCommaL (l.map String.data)⟩

/-- JS `String.prototype.split(',')` on strings. -/
def splitComma (s : String) : List String := (splitCommaL s.data).map String.mk

/-- `encodeFilterState` from `navigationContext.ts`: each non-default filter
field is `set` on a fresh `URLSearchParams` in source order. -/
def encodeFilterState (filters : FilterState) : URLParams :=
  let params : URLParams := []
  let params :=
    if 0 < filters.party.length then setParam params "party" (joinComma filters.party)
    else params
  let params :=
    if filters.hasCandidate ≠ .all then
      setParam params "hasCandidate" filters.hasCandidate.code
    else params
  let params :=
    if filters.contested ≠ .all then setParam params "contested" filters.contested.code
    else params
  let params :=
    if 0 < filters.opportunity.length then
      setParam params "opportunity" (joinComma filters.opportunity)
    else params
  let params :=
    if filters.showRepublicanData then
      setParam (setParam params "showRepublican" "true") "republicanMode"
        filters.republicanDataMode.code
    else params
  params

/-- `Partial<FilterState>`: each field either present or absent. -/
structure PartialFilterState where
  party : Option (List String)
  hasCandidate : Option YesNoAll
  contested : Option YesNoAll
  opportunity : Option (List String)
  showRepublicanData : Option Bool
  republicanDataMode : Option RepublicanDataMode
deriving DecidableEq, Repr

/-- `decodeFilterState` from `navigationContext.ts`.  JS string truthiness
(`if (partyParam)`) is non-emptiness; `.filter(Boolean)` drops empty
strings; the membership guards accept only the listed literals. -/
def decodeFilterState (ps : URLParams) : PartialFilterState :=
  let party :=
    match getParam ps "party" with
    | some s => if s ≠ "" then some ((splitComma s).filter (fun x => x ≠ "")) else none
    | none => none
  let hasCandidate :=
    match getParam ps "hasCandidate" with
    | some s => if s = "yes" then some .yes else if s = "no" then some .no else none
    | none => none
  let contested :=
    match getParam ps "contested" with
    | some s => if s = "yes" then some .yes else if s = "no" then some .no else none
    | none => none
  let opportunity :=
    match getParam ps "opportunity" with
    | some s => if s ≠ "" then some ((splitComma s).filter (fun x => x ≠ "")) else none
    | none => none
  let showRep := getParam ps "showRepublican" == some "true"
  let republicanDataMode :=
    if showRep then
      match getParam ps "republicanMode" with
      | some s =>
        if s = "incumbents" then some .incumbents
        else if s = "challengers" then some .challengers
        else if s = "all" then some .allM
        else none
      | none => none
    else none
  { party := party
    hasCandidate := hasCandidate
    contested := contested
    opportunity := opportunity
    showRepublicanData := if showRep then some true else none
    republicanDataMode := republicanDataMode }

/-- The JS spread `{ ...defaultFilters, ...partial }` of `parseReturnFilters`:
fields present in the partial win, absent fields fall back to the default. -/
def mergeFilters (d : FilterState) (p : PartialFilterState) : FilterState :=
  { party := p.party.getD d.party
    hasCandidate := p.hasCandidate.getD d.hasCandidate
    contested := p.contested.getD d.contested
    opportunity := p.opportunity.getD d.opportunity
    showRepublicanData := p.showRepublicanData.getD d.showRepublicanData
    republicanDataMode := p.republicanDataMode.getD d.republicanDataMode }

/-! ### Concrete fixtures used by counterexamples and witnesses -/

/-- Concrete fixture: a bare district with no candidates and no incumbent. -/
def cexDistrict : District := { districtNumber := 1, candidates := [], incumbent := none }

/-- Concrete fixture: a second bare district. -/
def cexDistrict2 : District := { districtNumber := 2, candidates := [], incumbent := none }

/-- Concrete fixture: a candidate record set holding only district `1`. -/
def cexCandidates : CandidatesData := ⟨"t", [("1", cexDistrict)], []⟩

/-- Concrete fixture: a candidate record set holding districts `1` and `2`. -/
def cexCandidates2 : CandidatesData :=
  ⟨"t", [("1", cexDistrict), ("2", cexDistrict2)], []⟩

/-- Concrete fixture: an empty opportunity record set. -/
def cexOppEmpty : OpportunityData := ⟨"t", [], []⟩

/-- Concrete fixture: an empty elections record set. -/
def cexElecEmpty : ElectionsData := ⟨"t", [], []⟩

/-- Concrete fixture: an opportunity record for district `1`. -/
def cexOpportunity : DistrictOpportunity :=
  { districtNumber := 1
    opportunityScore := 65
    tier := .EMERGING
    tierLabel := "Emerging"
    factors := ⟨1/2, 1/2, 1, 0, true⟩
    metrics := ⟨50, 0, 50⟩
    flags := ⟨true, true, false, false, false⟩
    recommendation := "Recruit a candidate - emerging open seat" }

/-- Concrete fixture: an opportunity record set holding only district `1`. -/
def cexOppData : OpportunityData := ⟨"t", [("1", cexOpportunity)], []⟩

/-- Concrete fixture: a filter state whose party entry contains a comma. -/
def c10Bad : FilterState := { defaultFilters with party := ["a,b"] }

/-- Concrete fixture: a representative filter state with comma-free,
non-empty entries. -/
def c10Good : FilterState :=
  { party := ["Democratic"]
    hasCandidate := .yes
    contested := .all
    opportunity := ["HIGH_OPPORTUNITY", "BUILD"]
    showRepublicanData := true
    republicanDataMode := .challengers }

/-! ### Theorems: the scoring engine -/

/-- The aggregated score never exceeds 100 (clamping in §4.3). -/
theorem opportunityScoreOf_le_100 (f : OpportunityFactors) :
    opportunityScoreOf f ≤ 100 := by
  unfold opportunityScoreOf
  generalize round (rawScore f) = x
  omega

/-- The score bands of §4.3 never yield `DEFENSIVE`. -/
theorem classifyScoreBand_ne_DEFENSIVE (s : Nat) :
    classifyScoreBand s ≠ .DEFENSIVE := by
  unfold classifyScoreBand
  split_ifs <;> simp

/-- The tier classifier yields `DEFENSIVE` exactly on the override flag. -/
theorem classifyTier_eq_DEFENSIVE (s : Nat) (b : Bool) :
    classifyTier s b = .DEFENSIVE ↔ b = true := by
  cases b with
  | true => simp [classifyTier]
  | false => simpa [classifyTier] using classifyScoreBand_ne_DEFENSIVE s

/-- Unfolding lemma: the tier of a scored district. -/
theorem scoreDistrict_tier (hist : DistrictElectionHistory) (d : District) :
    (scoreDistrict hist d).tier =
      classifyTier (opportunityScoreOf (calcFactors (extractMetrics hist) d))
        (isDefendedSeat d) := rfl

/-- Unfolding lemma: the score of a scored district. -/
theorem scoreDistrict_score (hist : DistrictElectionHistory) (d : District) :
    (scoreDistrict hist d).opportunityScore =
      opportunityScoreOf (calcFactors (extractMetrics hist) d) := rfl

/-- Unfolding lemma: the flags of a scored district. -/
theorem scoreDistrict_flags (hist : DistrictElectionHistory) (d : District) :
    (scoreDistrict hist d).flags =
      mkFlags (calcFactors (extractMetrics hist) d)
        (opportunityScoreOf (calcFactors (extractMetrics hist) d))
        (classifyTier (opportunityScoreOf (calcFactors (extractMetrics hist) d))
          (isDefendedSeat d)) := rfl

/-- Claim C1: every District Opportunity record the engine emits has an
integer `opportunityScore` in [0, 100] (it is a `Nat`, so the lower bound is
by construction) and a `tier` drawn from exactly the five enumerated
strings, so a closed switch over the tier needs no default case. -/
theorem claim1_score_bounds_and_tier_enum (hist : DistrictElectionHistory)
    (d : District) :
    (scoreDistrict hist d).opportunityScore ≤ 100 ∧
      (scoreDistrict hist d).tier.code ∈
        ["HIGH_OPPORTUNITY", "EMERGING", "BUILD", "DEFENSIVE", "NON_COMPETITIVE"] := by
  constructor
  · rw [scoreDistrict_score]
    exact opportunityScoreOf_le_100 _
  · cases (scoreDistrict hist d).tier <;> decide

/-- Claim C2: a district's tier is `DEFENSIVE` exactly when its incumbent's
party is the target party; the override ignores the numeric score, so any
district with a target-party incumbent is `DEFENSIVE` and no other district
ever is. -/
theorem claim2_defensive_iff_target_incumbent (hist : DistrictElectionHistory)
    (d : District) :
    (scoreDistrict hist d).tier = .DEFENSIVE ↔
      ∃ inc, d.incumbent = some inc ∧ inc.party = .Democratic := by
  rw [scoreDistrict_tier, classifyTier_eq_DEFENSIVE]
  unfold isDefendedSeat
  cases hd : d.incumbent with
  | none => simp
  | some inc => simp [beq_iff_eq]

/-- Claim C3: the score bands use inclusive lower bounds - `HIGH_OPPORTUNITY`
iff score ≥ 70, `EMERGING` iff 50 ≤ score < 70, `BUILD` iff
30 ≤ score < 50, `NON_COMPETITIVE` iff score < 30 - with the boundary
scores 70, 50, 30 resolving to the higher tier; and `getScoreColor` of
`TableRow.tsx` colors every score with exactly its band's tier color. -/
theorem claim3_band_boundaries (s : Nat) :
    (classifyScoreBand s = .HIGH_OPPORTUNITY ↔ 70 ≤ s) ∧
      (classifyScoreBand s = .EMERGING ↔ 50 ≤ s ∧ s < 70) ∧
      (classifyScoreBand s = .BUILD ↔ 30 ≤ s ∧ s < 50) ∧
      (classifyScoreBand s = .NON_COMPETITIVE ↔ s < 30) ∧
      classifyScoreBand 70 = .HIGH_OPPORTUNITY ∧
      classifyScoreBand 50 = .EMERGING ∧
      classifyScoreBand 30 = .BUILD ∧
      getScoreColor s = scoreBandColor (classifyScoreBand s) := by
  refine ⟨?_, ?_, ?_, ?_, by decide, by decide, by decide, ?_⟩ <;>
    · simp only [classifyScoreBand, getScoreColor, scoreBandColor]
      split_ifs <;> simp_all <;> omega

/-- Claim C4: `needsCandidate` is set exactly when the score is at least 50
and the target party has no confirmed filer. -/
theorem claim4_needsCandidate_iff (hist : DistrictElectionHistory)
    (d : District) :
    (scoreDistrict hist d).flags.needsCandidate = true ↔
      50 ≤ (scoreDistrict hist d).opportunityScore ∧
        (scoreDistrict hist d).flags.hasDemocrat = false := by
  rw [scoreDistrict_flags, scoreDistrict_score]
  unfold mkFlags
  simp [Bool.and_eq_true, Bool.not_eq_true', decide_eq_true_iff]

/-- A candidate matches the target party exactly when its party string is
present and lowercases to the target's literal name. -/
theorem isTargetPartyCandidate_iff (c : Candidate) :
    isTargetPartyCandidate c = true ↔
      ∃ p, c.party = some p ∧ p.toLower = "democratic" := by
  cases hc : c.party <;> simp [isTargetPartyCandidate, hc, beq_iff_eq]

/-- Claim C7: `candidatePresence` is 1 exactly when some filed candidate's
party string equals the target party's literal name case-insensitively, is
0-or-1-valued, and the `hasDemocrat` flag holds exactly when it is 1. -/
theorem claim7_candidatePresence (hist : DistrictElectionHistory)
    (d : District) :
    ((calcFactors (extractMetrics hist) d).candidatePresence = 1 ↔
        ∃ c ∈ d.candidates, ∃ p, c.party = some p ∧ p.toLower = "democratic") ∧
      ((calcFactors (extractMetrics hist) d).candidatePresence = 1 ∨
        (calcFactors (extractMetrics hist) d).candidatePresence = 0) ∧
      ((scoreDistrict hist d).flags.hasDemocrat = true ↔
        (calcFactors (extractMetrics hist) d).candidatePresence = 1) := by
  have hcp : (calcFactors (extractMetrics hist) d).candidatePresence =
      if d.candidates.any isTargetPartyCandidate then 1 else 0 := rfl
  have hhd : (scoreDistrict hist d).flags.hasDemocrat =
      decide ((calcFactors (extractMetrics hist) d).candidatePresence = 1) := rfl
  refine ⟨?_, ?_, ?_⟩
  · rw [hcp]
    have h01 : (if d.candidates.any isTargetPartyCandidate then (1 : Rat) else 0) = 1 ↔
        d.candidates.any isTargetPartyCandidate = true := by
      split_ifs with h <;> simp [h]
    rw [h01, List.any_eq_true]
    simp [isTargetPartyCandidate_iff]
  · rw [hcp]; split_ifs <;> simp
  · rw [hhd]; simp [decide_eq_true_iff]

/-- Claim C8: the engine is deterministic - two runs over identical input
record sets agree on every per-district output record of both chambers; the
batch `lastUpdated` timestamp is the only field that can differ, and it is
exactly the timestamp input. -/
theorem claim8_determinism (ts1 ts2 : String) (cd : CandidatesData)
    (ed : ElectionsData) :
    (runEngine ts1 cd ed).house = (runEngine ts2 cd ed).house ∧
      (runEngine ts1 cd ed).senate = (runEngine ts2 cd ed).senate ∧
      (runEngine ts1 cd ed).lastUpdated = ts1 :=
  ⟨rfl, rfl, rfl⟩

/-! ### Theorems: table row construction (claims C5 and C6) -/

/-- Appending to a fixed string on the left is injective. -/
theorem string_append_right_inj (p a b : String) : p ++ a = p ++ b ↔ a = b := by
  constructor
  · intro h
    have hd := congrArg String.data h
    simp only [String.data_append] at hd
    exact String.ext (List.append_cancel_left hd)
  · intro h; rw [h]

/-- A candidate entry produces a row exactly when its key has an opportunity
record. -/
theorem mkStrategicRow_isSome (opps : List (String × DistrictOpportunity))
    (elecs : List (String × DistrictElectionHistory)) (ch : Chamber)
    (k : String) (d : District) :
    (mkStrategicRow opps elecs ch k d).isSome = (List.lookup k opps).isSome := by
  unfold mkStrategicRow
  cases h : List.lookup k opps <;> simp

/-- The row produced for a candidate entry carries the entry's district id. -/
theorem mkStrategicRow_districtId (opps : List (String × DistrictOpportunity))
    (elecs : List (String × DistrictElectionHistory)) (ch : Chamber)
    (k : String) (d : District) (r : StrategicTableRow)
    (h : mkStrategicRow opps elecs ch k d = some r) :
    r.districtId = chamberPrefix ch ++ "-" ++ k := by
  unfold mkStrategicRow at h
  cases hl : List.lookup k opps with
  | none => rw [hl] at h; exact absurd h (by simp)
  | some o =>
    rw [hl] at h
    simp only [Option.some.injEq] at h
    subst h
    rfl

/-- A row produced for an entry with no election-history record has a null
2024 margin and the `N/A` display. -/
theorem mkStrategicRow_no_history (opps : List (String × DistrictOpportunity))
    (elecs : List (String × DistrictElectionHistory)) (ch : Chamber)
    (k : String) (d : District) (r : StrategicTableRow)
    (he : List.lookup k elecs = none)
    (h : mkStrategicRow opps elecs ch k d = some r) :
    r.margin2024 = none ∧ r.marginDisplay = "N/A" := by
  unfold mkStrategicRow at h
  cases hl : List.lookup k opps with
  | none => rw [hl] at h; exact absurd h (by simp)
  | some o =>
    rw [hl] at h
    simp only [Option.some.injEq] at h
    subst h
    simp [he]

/-- Per-district output multiplicity of the row-building loop: over a
candidate list with distinct keys, a key yields exactly one row when it has
an opportunity record, and none otherwise. -/
theorem count_rows (districts : List (String × District))
    (opps : List (String × DistrictOpportunity))
    (elecs : List (String × DistrictElectionHistory)) (ch : Chamber)
    (k : String) (hnd : (districts.map Prod.fst).Nodup) :
    ((districts.filterMap fun kv => mkStrategicRow opps elecs ch kv.1 kv.2).filter
        (fun r => r.districtId == chamberPrefix ch ++ "-" ++ k)).length =
      if k ∈ districts.map Prod.fst ∧ (List.lookup k opps).isSome then 1
      else 0 := by
  induction districts with
  | nil => simp
  | cons kv rest ih =>
    rw [List.map_cons, List.nodup_cons] at hnd
    obtain ⟨hk, hnd'⟩ := hnd
    rw [List.filterMap_cons, List.map_cons]
    simp only [List.mem_cons]
    cases hrow : mkStrategicRow opps elecs ch kv.1 kv.2 with
    | none =>
      have hno : List.lookup kv.1 opps = none := by
        have h2 := mkStrategicRow_isSome opps elecs ch kv.1 kv.2
        rw [hrow] at h2
        cases hl : List.lookup kv.1 opps with
        | none => rfl
        | some o => rw [hl] at h2; simp at h2
      rw [ih hnd']
      split_ifs with h1 h2 h2 <;> try rfl
      · exact absurd ⟨Or.inr h1.1, h1.2⟩ h2
      · rcases h2 with ⟨hor, hs⟩
        rcases hor with he | hm
        · rw [he, hno] at hs; simp at hs
        · exact absurd ⟨hm, hs⟩ h1
    | some r =>
      have hid : r.districtId = chamberPrefix ch ++ "-" ++ kv.1 :=
        mkStrategicRow_districtId opps elecs ch kv.1 kv.2 r hrow
      have hsome : (List.lookup kv.1 opps).isSome = true := by
        have h2 := mkStrategicRow_isSome opps elecs ch kv.1 kv.2
        rw [hrow] at h2
        exact h2.symm
      by_cases hkk : kv.1 = k
      · subst hkk
        have hcond : (r.districtId == chamberPrefix ch ++ "-" ++ kv.1) = true := by
          simp [hid]
        rw [List.filter_cons, if_pos hcond, List.length_cons, ih hnd']
        rw [if_neg (fun hx : _ ∧ _ => hk hx.1), if_pos ⟨Or.inl rfl, hsome⟩]
      · have hcond : (r.districtId == chamberPrefix ch ++ "-" ++ k) = false := by
          simp only [hid, beq_eq_false_iff_ne, ne_eq, string_append_right_inj]
          exact hkk
        rw [List.filter_cons, if_neg (by rw [hcond]; exact Bool.false_ne_true),
          ih hnd']
        split_ifs with h1 h2 h2 <;> try rfl
        · exact absurd ⟨Or.inr h1.1, h1.2⟩ h2
        · rcases h2 with ⟨hor, hs⟩
          rcases hor with he | hm
          · exact absurd he.symm hkk
          · exact absurd ⟨hm, hs⟩ h1

/-- Claim C5, counterexample: district key `1` is present in the Candidate
Filing Record set, yet the output set holds no record for it, because its
key has no opportunity record - `buildTableRows` drops such keys
(`if (!opportunity) continue`), so not every filing-set key gets exactly one
output record. -/
theorem claim5_counterexample :
    "1" ∈ (cexCandidates.get .house).map Prod.fst ∧
      ((buildTableRows cexCandidates cexOppEmpty cexElecEmpty .house).filter
        (fun r => r.districtId == chamberPrefix .house ++ "-" ++ "1")).length = 0 :=
  ⟨by decide, rfl⟩

/-- Claim C5 as amended: over a candidate record set with distinct keys, a
district key yields exactly one output record when it also has an
opportunity record, and none otherwise - in particular no key ever appears
twice. -/
theorem claim5_amended (cd : CandidatesData) (od : OpportunityData)
    (ed : ElectionsData) (ch : Chamber) (k : String)
    (hnd : ((cd.get ch).map Prod.fst).Nodup) :
    ((buildTableRows cd od ed ch).filter
        (fun r => r.districtId == chamberPrefix ch ++ "-" ++ k)).length =
      if k ∈ (cd.get ch).map Prod.fst ∧ (List.lookup k (od.get ch)).isSome
      then 1 else 0 :=
  count_rows (cd.get ch) (od.get ch) (ed.get ch) ch k hnd

/-- Witness for the amended claim C5 at a concrete two-district input. -/
theorem claim5_witness :
    ((cexCandidates2.get .house).map Prod.fst).Nodup ∧
      ((buildTableRows cexCandidates2 cexOppData cexElecEmpty .house).filter
        (fun r => r.districtId == chamberPrefix .house ++ "-" ++ "1")).length =
        (if "1" ∈ (cexCandidates2.get .house).map Prod.fst ∧
            (List.lookup "1" (cexOppData.get .house)).isSome then 1 else 0) :=
  ⟨by decide,
   claim5_amended cexCandidates2 cexOppData cexElecEmpty .house "1" (by decide)⟩

/-- Claim C6, counterexample: district `1` is present in the Candidate
Filing Record set and has no Election History Record, yet it is NOT excluded
from the output set - `buildTableRows` still emits its row, with a null 2024
margin displayed as `N/A`. -/
theorem claim6_counterexample :
    List.lookup "1" (cexElecEmpty.get .house) = none ∧
      (buildTableRows cexCandidates cexOppData cexElecEmpty .house).map
        (fun r => r.districtId) = ["HD-1"] ∧
      (buildTableRows cexCandidates cexOppData cexElecEmpty .house).map
        (fun r => r.marginDisplay) = ["N/A"] :=
  ⟨rfl, rfl, rfl⟩

/-- Claim C6 as amended: a district key present in the Candidate Filing
Record set with an opportunity record but no Election History Record is
still included in the output set, with `margin2024` null and the `N/A`
margin display; only a missing opportunity record excludes a key, and the
run always completes over the remaining districts. -/
theorem claim6_amended (cd : CandidatesData) (od : OpportunityData)
    (ed : ElectionsData) (ch : Chamber) (k : String) (d : District)
    (o : DistrictOpportunity) (hmem : (k, d) ∈ cd.get ch)
    (ho : List.lookup k (od.get ch) = some o)
    (he : List.lookup k (ed.get ch) = none) :
    ∃ r ∈ buildTableRows cd od ed ch,
      r.districtId = chamberPrefix ch ++ "-" ++ k ∧
        r.margin2024 = none ∧ r.marginDisplay = "N/A" := by
  have hsome : ∃ r, mkStrategicRow (od.get ch) (ed.get ch) ch k d = some r := by
    have h2 := mkStrategicRow_isSome (od.get ch) (ed.get ch) ch k d
    rw [ho] at h2
    exact Option.isSome_iff_exists.mp (by rw [h2]; rfl)
  obtain ⟨r, hr⟩ := hsome
  exact ⟨r, List.mem_filterMap.mpr ⟨(k, d), hmem, hr⟩,
    mkStrategicRow_districtId _ _ _ _ _ _ hr,
    (mkStrategicRow_no_history _ _ _ _ _ _ he hr).1,
    (mkStrategicRow_no_history _ _ _ _ _ _ he hr).2⟩

/-- Witness for the amended claim C6 at a concrete input with an opportunity
record but no election history. -/
theorem claim6_witness :
    ("1", cexDistrict) ∈ cexCandidates.get .house ∧
      ∃ r ∈ buildTableRows cexCandidates cexOppData cexElecEmpty .house,
        r.districtId = chamberPrefix .house ++ "-" ++ "1" ∧
          r.margin2024 = none ∧ r.marginDisplay = "N/A" :=
  ⟨by decide,
   claim6_amended cexCandidates cexOppData cexElecEmpty .house "1" cexDistrict
     cexOpportunity (by decide) rfl rfl⟩

/-! ### Theorems: CSV field escaping (claim C9) -/

/-- Doubling quotes never turns a non-empty string empty. -/
theorem doubleQuotesL_eq_nil_iff (l : List Char) :
    doubleQuotesL l = [] ↔ l = [] := by
  cases l with
  | nil => simp [doubleQuotesL]
  | cons c rest =>
    simp only [doubleQuotesL]
    split_ifs <;> simp

/-- Collapsing doubled quotes inverts doubling. -/
theorem collapseQuotesL_doubleQuotesL (l : List Char) :
    collapseQuotesL (doubleQuotesL l) = l := by
  induction l with
  | nil => rfl
  | cons c rest ih =>
    by_cases hc : c = '"'
    · subst hc
      simp only [doubleQuotesL, if_pos rfl]
      simp [collapseQuotesL, ih]
    · simp only [doubleQuotesL, if_neg hc]
      cases hD : doubleQuotesL rest with
      | nil =>
        have h0 : rest = [] := (doubleQuotesL_eq_nil_iff rest).mp hD
        subst h0
        rfl
      | cons d ds =>
        simp only [collapseQuotesL]
        rw [if_neg (fun hx : _ ∧ _ => hc hx.1), ← hD, ih]

/-- Unescaping the quoted-and-doubled form recovers the original characters. -/
theorem unescapeL_wrap (l : List Char) :
    unescapeL ('"' :: (doubleQuotesL l ++ ['"'])) = l := by
  simp [unescapeL, List.getLast?_concat, List.dropLast_concat,
    collapseQuotesL_doubleQuotesL]

/-- A field with no double quote at all is left unchanged by unescaping. -/
theorem unescapeL_no_quote (l : List Char) (h : '"' ∉ l) : unescapeL l = l := by
  cases l with
  | nil => rfl
  | cons c rest =>
    have hc : c ≠ '"' := fun hh => h (List.mem_cons.mpr (Or.inl hh.symm))
    simp [unescapeL, hc]

/-- Claim C9: for a non-null, non-undefined value, `escapeCSVField` wraps the
value's string form in double quotes with interior quotes doubled exactly
when the string contains a comma, a double quote or a newline, and returns
it unchanged otherwise; RFC 4180 unescaping of the emitted field recovers
`String(value)`; `null` and `undefined` both map to the empty field. -/
theorem claim9_escape_roundtrip (v : CSVValue) :
    (v.isNullish = true → escapeCSVField v = "") ∧
      (v.isNullish = false → hasSpecialChar (stringOfValue v) = true →
        escapeCSVField v =
          ⟨'"' :: (doubleQuotesL (stringOfValue v).data ++ ['"'])⟩) ∧
      (v.isNullish = false → hasSpecialChar (stringOfValue v) = false →
        escapeCSVField v = stringOfValue v) ∧
      unescapeCSVField (escapeCSVField v) =
        (if v.isNullish then "" else stringOfValue v) := by
  refine ⟨?_, ?_, ?_, ?_⟩
  · intro h; simp [escapeCSVField, h]
  · intro h hs; simp [escapeCSVField, h, hs]
  · intro h hs; simp [escapeCSVField, h, hs]
  · by_cases hn : v.isNullish = true
    · rw [if_pos hn]
      simp only [escapeCSVField, if_pos hn]
      rfl
    · have hn' : v.isNullish = false := by simpa using hn
      rw [if_neg (by simp [hn'])]
      by_cases hs : hasSpecialChar (stringOfValue v) = true
      · have he : escapeCSVField v =
            ⟨'"' :: (doubleQuotesL (stringOfValue v).data ++ ['"'])⟩ := by
          simp [escapeCSVField, hn', hs]
        rw [he]
        show (⟨unescapeL ('"' :: (doubleQuotesL (stringOfValue v).data ++ ['"']))⟩ :
          String) = stringOfValue v
        rw [unescapeL_wrap]
      · have hs' : hasSpecialChar (stringOfValue v) = false := by simpa using hs
        have he : escapeCSVField v = stringOfValue v := by
          simp [escapeCSVField, hn', hs']
        rw [he]
        have hq : '"' ∉ (stringOfValue v).data := by
          intro hmem
          have habs : hasSpecialChar (stringOfValue v) = true := by
            simp only [hasSpecialChar, List.any_eq_true]
            exact ⟨'"', hmem, by decide⟩
          rw [hs'] at habs
          exact Bool.false_ne_true habs
        show (⟨unescapeL (stringOfValue v).data⟩ : String) = stringOfValue v
        rw [unescapeL_no_quote _ hq]

/-- Witness for claim C9 at a concrete string containing a comma and a
double quote. -/
theorem claim9_witness :
    CSVValue.isNullish (CSVValue.vstr "a,\"b") = false ∧
      escapeCSVField (CSVValue.vstr "a,\"b") =
        ⟨'"' :: (doubleQuotesL (stringOfValue (CSVValue.vstr "a,\"b")).data ++
          ['"'])⟩ ∧
      unescapeCSVField (escapeCSVField (CSVValue.vstr "a,\"b")) =
        (if (CSVValue.vstr "a,\"b").isNullish then ""
         else stringOfValue (CSVValue.vstr "a,\"b")) :=
  ⟨by decide,
   (claim9_escape_roundtrip (CSVValue.vstr "a,\"b")).2.1 (by decide) (by decide),
   (claim9_escape_roundtrip (CSVValue.vstr "a,\"b")).2.2.2⟩

/-! ### Theorems: filter-state URL round-trip (claim C10) -/

/-- Rebuilding a string from its own characters is the identity. -/
theorem mk_data_eta (s : String) : String.mk s.data = s := rfl

/-- Splitting a comma-free chunk yields the single chunk. -/
theorem splitCommaL_no_comma (l : List Char) (h : ',' ∉ l) :
    splitCommaL l = [l] := by
  induction l with
  | nil => rfl
  | cons c rest ih =>
    have hc : c ≠ ',' := fun hh => h (List.mem_cons.mpr (Or.inl hh.symm))
    have hr : ',' ∉ rest := fun hm => h (List.mem_cons.mpr (Or.inr hm))
    simp [splitCommaL, hc, ih hr]

/-- Splitting after a comma-free prefix peels off exactly that prefix. -/
theorem splitCommaL_append (x r : List Char) (hx : ',' ∉ x) :
    splitCommaL (x ++ ',' :: r) = x :: splitCommaL r := by
  induction x with
  | nil => simp [splitCommaL]
  | cons c xs ih =>
    have hc : c ≠ ',' := fun hh => hx (List.mem_cons.mpr (Or.inl hh.symm))
    have hxs : ',' ∉ xs := fun hm => hx (List.mem_cons.mpr (Or.inr hm))
    simp [splitCommaL, hc, ih hxs]

/-- Splitting inverts joining for a non-empty list of comma-free chunks. -/
theorem splitCommaL_joinCommaL (l : List (List Char)) (hne : l ≠ [])
    (hc : ∀ x ∈ l, ',' ∉ x) : splitCommaL (joinCommaL l) = l := by
  induction l with
  | nil => exact absurd rfl hne
  | cons x xs ih =>
    cases xs with
    | nil =>
      simp only [joinCommaL]
      exact splitCommaL_no_comma x (hc x (by simp))
    | cons y ys =>
      have hx : ',' ∉ x := hc x (by simp)
      simp only [joinCommaL]
      rw [splitCommaL_append x _ hx,
        ih (by simp) (fun z hz => hc z (List.mem_cons.mpr (Or.inr hz)))]

/-- String-level inversion: `split(',')` undoes `join(',')` for a non-empty
list of non-comma-containing strings. -/
theorem splitComma_joinComma (l : List String) (hne : l ≠ [])
    (hc : ∀ s ∈ l, ',' ∉ s.data) : splitComma (joinComma l) = l := by
  unfold splitComma joinComma
  rw [show (⟨joinCommaL (l.map String.data)⟩ : String).data =
      joinCommaL (l.map String.data) from rfl]
  rw [splitCommaL_joinCommaL (l.map String.data) (by simpa using hne)
    (fun x hx => by obtain ⟨s, hs, rfl⟩ := List.mem_map.mp hx; exact hc s hs)]
  simp only [List.map_map]
  exact (List.map_congr_left (fun s _ => mk_data_eta s)).trans (List.map_id l)

/-- Joining a non-empty list of non-empty strings is non-empty. -/
theorem joinComma_ne_empty (l : List String) (hne : l ≠ [])
    (h1 : ∀ s ∈ l, s ≠ "") : joinComma l ≠ "" := by
  cases l with
  | nil => exact absurd rfl hne
  | cons x xs =>
    cases xs with
    | nil =>
      intro habs
      apply h1 x (by simp)
      have hd := congrArg String.data habs
      rw [show (joinComma [x]).data = x.data from rfl] at hd
      exact String.ext hd
    | cons y ys =>
      intro habs
      have hd := congrArg String.data habs
      rw [show (joinComma (x :: y :: ys)).data =
          x.data ++ ',' :: joinCommaL ((y :: ys).map String.data) from rfl] at hd
      rw [show ("" : String).data = [] from rfl] at hd
      exact absurd hd (by simp)

/-- The `party` parameter emitted by the encoder. -/
theorem getParam_encode_party (f : FilterState) :
    getParam (encodeFilterState f) "party" =
      if 0 < f.party.length then some (joinComma f.party) else none := by
  simp only [encodeFilterState]
  split_ifs <;> rfl

/-- The `hasCandidate` parameter emitted by the encoder. -/
theorem getParam_encode_hasCandidate (f : FilterState) :
    getParam (encodeFilterState f) "hasCandidate" =
      if f.hasCandidate ≠ .all then some f.hasCandidate.code else none := by
  simp only [encodeFilterState]
  split_ifs <;> rfl

/-- The `contested` parameter emitted by the encoder. -/
theorem getParam_encode_contested (f : FilterState) :
    getParam (encodeFilterState f) "contested" =
      if f.contested ≠ .all then some f.contested.code else none := by
  simp only [encodeFilterState]
  split_ifs <;> rfl

/-- The `opportunity` parameter emitted by the encoder. -/
theorem getParam_encode_opportunity (f : FilterState) :
    getParam (encodeFilterState f) "opportunity" =
      if 0 < f.opportunity.length then some (joinComma f.opportunity)
      else none := by
  simp only [encodeFilterState]
  split_ifs <;> rfl

/-- The `showRepublican` parameter emitted by the encoder. -/
theorem getParam_encode_showRepublican (f : FilterState) :
    getParam (encodeFilterState f) "showRepublican" =
      if f.showRepublicanData then some "true" else none := by
  simp only [encodeFilterState]
  split_ifs <;> rfl

/-- The `republicanMode` parameter emitted by the encoder. -/
theorem getParam_encode_republicanMode (f : FilterState) :
    getParam (encodeFilterState f) "republicanMode" =
      if f.showRepublicanData then some f.republicanDataMode.code else none := by
  simp only [encodeFilterState]
  split_ifs <;> rfl

/-- Unfolding lemma: the decoded `party` field. -/
theorem decodeFilterState_party (ps : URLParams) :
    (decodeFilterState ps).party =
      match getParam ps "party" with
      | some s =>
        if s ≠ "" then some ((splitComma s).filter (fun x => x ≠ "")) else none
      | none => none := rfl

/-- Unfolding lemma: the decoded `hasCandidate` field. -/
theorem decodeFilterState_hasCandidate (ps : URLParams) :
    (decodeFilterState ps).hasCandidate =
      match getParam ps "hasCandidate" with
      | some s => if s = "yes" then some .yes else if s = "no" then some .no
        else none
      | none => none := rfl

/-- Unfolding lemma: the decoded `contested` field. -/
theorem decodeFilterState_contested (ps : URLParams) :
    (decodeFilterState ps).contested =
      match getParam ps "contested" with
      | some s => if s = "yes" then some .yes else if s = "no" then some .no
        else none
      | none => none := rfl

/-- Unfolding lemma: the decoded `opportunity` field. -/
theorem decodeFilterState_opportunity (ps : URLParams) :
    (decodeFilterState ps).opportunity =
      match getParam ps "opportunity" with
      | some s =>
        if s ≠ "" then some ((splitComma s).filter (fun x => x ≠ "")) else none
      | none => none := rfl

/-- Unfolding lemma: the decoded `showRepublicanData` field. -/
theorem decodeFilterState_showRepublicanData (ps : URLParams) :
    (decodeFilterState ps).showRepublicanData =
      (if (getParam ps "showRepublican" == some "true") = true then some true
       else none) := rfl

/-- Unfolding lemma: the decoded `republicanDataMode` field. -/
theorem decodeFilterState_republicanDataMode (ps : URLParams) :
    (decodeFilterState ps).republicanDataMode =
      (if (getParam ps "showRepublican" == some "true") = true then
        match getParam ps "republicanMode" with
        | some s =>
          if s = "incumbents" then some .incumbents
          else if s = "challengers" then some .challengers
          else if s = "all" then some .allM
          else none
        | none => none
       else none) := rfl

/-- Claim C10, counterexample: the round trip is not the identity on every
`FilterState` - a party entry containing a comma is split into two entries
by `decodeFilterState` (`join(',')` then `split(',')`), so merging the
decoded state over the defaults does not recover the original. -/
theorem claim10_counterexample :
    mergeFilters defaultFilters (decodeFilterState (encodeFilterState c10Bad)) ≠
      c10Bad := by decide

/-- Claim C10 as amended: for a filter state whose `party` and `opportunity`
entries are non-empty and comma-free, merging the decoded encoding over the
default filter state recovers the state exactly, except that
`republicanDataMode` is recovered only when `showRepublicanData` is true
(otherwise it falls back to the default `none` mode); fields equal to their
sentinel defaults are recovered as those defaults, which coincide with the
original values. -/
theorem claim10_amended (f : FilterState)
    (hp : ∀ s ∈ f.party, s ≠ "" ∧ ',' ∉ s.data)
    (hq : ∀ s ∈ f.opportunity, s ≠ "" ∧ ',' ∉ s.data) :
    mergeFilters defaultFilters (decodeFilterState (encodeFilterState f)) =
      { f with republicanDataMode :=
          if f.showRepublicanData then f.republicanDataMode
          else RepublicanDataMode.noneM } := by
  have hparty : (decodeFilterState (encodeFilterState f)).party =
      if 0 < f.party.length then some f.party else none := by
    rw [decodeFilterState_party, getParam_encode_party]
    by_cases hpe : 0 < f.party.length
    · rw [if_pos hpe, if_pos hpe]
      show (if joinComma f.party ≠ "" then
          some ((splitComma (joinComma f.party)).filter (fun x => x ≠ ""))
        else none) = some f.party
      have hne : f.party ≠ [] := by
        intro h0; rw [h0] at hpe; simp at hpe
      rw [if_pos (joinComma_ne_empty f.party hne (fun s hs => (hp s hs).1))]
      rw [splitComma_joinComma f.party hne (fun s hs => (hp s hs).2)]
      congr 1
      exact List.filter_eq_self.mpr (fun s hs => decide_eq_true (hp s hs).1)
    · rw [if_neg hpe, if_neg hpe]
  have hop : (decodeFilterState (encodeFilterState f)).opportunity =
      if 0 < f.opportunity.length then some f.opportunity else none := by
    rw [decodeFilterState_opportunity, getParam_encode_opportunity]
    by_cases hpe : 0 < f.opportunity.length
    · rw [if_pos hpe, if_pos hpe]
      show (if joinComma f.opportunity ≠ "" then
          some ((splitComma (joinComma f.opportunity)).filter (fun x => x ≠ ""))
        else none) = some f.opportunity
      have hne : f.opportunity ≠ [] := by
        intro h0; rw [h0] at hpe; simp at hpe
      rw [if_pos (joinComma_ne_empty f.opportunity hne (fun s hs => (hq s hs).1))]
      rw [splitComma_joinComma f.opportunity hne (fun s hs => (hq s hs).2)]
      congr 1
      exact List.filter_eq_self.mpr (fun s hs => decide_eq_true (hq s hs).1)
    · rw [if_neg hpe, if_neg hpe]
  have hhc : (decodeFilterState (encodeFilterState f)).hasCandidate =
      if f.hasCandidate = .all then none else some f.hasCandidate := by
    rw [decodeFilterState_hasCandidate, getParam_encode_hasCandidate]
    cases f.hasCandidate <;> rfl
  have hct : (decodeFilterState (encodeFilterState f)).contested =
      if f.contested = .all then none else some f.contested := by
    rw [decodeFilterState_contested, getParam_encode_contested]
    cases f.contested <;> rfl
  have hsr : (decodeFilterState (encodeFilterState f)).showRepublicanData =
      if f.showRepublicanData then some true else none := by
    rw [decodeFilterState_showRepublicanData, getParam_encode_showRepublican]
    cases f.showRepublicanData <;> rfl
  have hrm : (decodeFilterState (encodeFilterState f)).republicanDataMode =
      if f.showRepublicanData then
        (if f.republicanDataMode = .noneM then none
         else some f.republicanDataMode)
      else none := by
    rw [decodeFilterState_republicanDataMode, getParam_encode_showRepublican,
      getParam_encode_republicanMode]
    cases f.showRepublicanData
    · rfl
    · cases f.republicanDataMode <;> rfl
  simp only [mergeFilters, hparty, hop, hhc, hct, hsr, hrm,
    FilterState.mk.injEq]
  refine ⟨?_, ?_, ?_, ?_, ?_, ?_⟩
  · by_cases hpe : 0 < f.party.length
    · simp [hpe]
    · have h0 : f.party = [] := List.length_eq_zero.mp (by omega)
      simp [hpe, h0, defaultFilters]
  · by_cases h : f.hasCandidate = .all
    · simp [h, defaultFilters]
    · simp [h]
  · by_cases h : f.contested = .all
    · simp [h, defaultFilters]
    · simp [h]
  · by_cases hpe : 0 < f.opportunity.length
    · simp [hpe]
    · have h0 : f.opportunity = [] := List.length_eq_zero.mp (by omega)
      simp [hpe, h0, defaultFilters]
  · cases f.showRepublicanData <;> simp [defaultFilters]
  · cases f.showRepublicanData
    · simp [defaultFilters]
    · by_cases hm : f.republicanDataMode = .noneM
      · simp [hm, defaultFilters]
      · simp [hm]

/-- Witness for the amended claim C10 at a concrete filter state. -/
theorem claim10_witness :
    (∀ s ∈ c10Good.party, s ≠ "" ∧ ',' ∉ s.data) ∧
      (∀ s ∈ c10Good.opportunity, s ≠ "" ∧ ',' ∉ s.data) ∧
      mergeFilters defaultFilters
          (decodeFilterState (encodeFilterState c10Good)) =
        { c10Good with republicanDataMode :=
            if c10Good.showRepublicanData then c10Good.republicanDataMode
            else RepublicanDataMode.noneM } :=
  ⟨by decide, by decide, claim10_amended c10Good (by decide) (by decide)⟩

end BlueIntel
